import Mathlib

/-!
Shallow embedding of the rgba ARM7TDMI interpreter core (status register,
register bank, barrel shifter, data-processing ALU, bus and block/branch/SWI
executors) together with proofs checking the natural-language specification
against it.  Machine integers (Rust `u32`/`u16`/`u8`) are embedded as `Nat`
with explicit reduction modulo `2 ^ 32` (resp. smaller widths) exactly where
the Rust operation wraps.  Rust release-mode semantics are used for the
operations whose debug builds would panic (wrapping subtraction, masked
shifts); each such spot is noted on the definition it concerns.
-/

namespace Rgba

/-- Modulus of the 32-bit machine words used throughout the core. -/
def u32Size : Nat := 4294967296

/-- Wrap a natural number to the `u32` range (Rust wrapping semantics). -/
def wrap32 (n : Nat) : Nat := n % u32Size

/-- Rust `u32::overflowing_add`: wrapped sum plus the unsigned carry-out. -/
def overflowingAdd (a b : Nat) : Nat × Bool :=
  (wrap32 (a + b), decide (u32Size ≤ a + b))

/-- Rust `u32::overflowing_sub`: wrapped difference plus the borrow flag. -/
def overflowingSub (a b : Nat) : Nat × Bool :=
  (wrap32 (a + u32Size - b), decide (a < b))

/-- Rust `u32` wrapping subtraction (`a - b` in release builds). -/
def wrappingSub (a b : Nat) : Nat := wrap32 (a + u32Size - b)

/-- Rust `bool as u32`. -/
def boolToU32 (b : Bool) : Nat := if b then 1 else 0

/-- `src/core/interpreter/status.rs`: the processor-mode field with its
five-bit encodings. -/
inductive CpuMode where
  | User
  | Fiq
  | Irq
  | Supervisor
  | Abort
  | Undefined
  | System
  deriving DecidableEq, Repr

/-- `CpuMode as u32` (the `repr(u32)` discriminants of the source enum). -/
def CpuMode.toU32 : CpuMode → Nat
  | .User => 0x10
  | .Fiq => 0x11
  | .Irq => 0x12
  | .Supervisor => 0x13
  | .Abort => 0x17
  | .Undefined => 0x1b
  | .System => 0x1f

/-- `CpuMode::from_u32`: unknown encodings map to `Undefined`. -/
def CpuMode.from_u32 (mode : Nat) : CpuMode :=
  if mode = 0x10 then .User
  else if mode = 0x11 then .Fiq
  else if mode = 0x12 then .Irq
  else if mode = 0x13 then .Supervisor
  else if mode = 0x17 then .Abort
  else if mode = 0x1F then .System
  else .Undefined

/-- `src/core/interpreter/status.rs`: ARM (0) versus Thumb (1) decode mode. -/
inductive InstructionMode where
  | Arm
  | Thumb
  deriving DecidableEq, Repr

/-- `InstructionMode as u32`. -/
def InstructionMode.toU32 : InstructionMode → Nat
  | .Arm => 0
  | .Thumb => 1

/-- `src/core/interpreter/status.rs`: `ProgramStatusRegister`, the unpacked
CPSR/SPSR value. -/
structure ProgramStatusRegister where
  signed : Bool
  zero : Bool
  carry : Bool
  overflow : Bool
  sticky_overflow : Bool
  irq_disable : Bool
  fiq_disable : Bool
  instruction_mode : InstructionMode
  mode : CpuMode
  deriving DecidableEq, Repr

/-- `ProgramStatusRegister::to_u32`: flags at bits 31..27, IRQ/FIQ disable at
7..6, instruction mode at 5, processor mode at 4..0. -/
def ProgramStatusRegister.to_u32 (s : ProgramStatusRegister) : Nat :=
  (boolToU32 s.signed <<< 31) |||
  (boolToU32 s.zero <<< 30) |||
  (boolToU32 s.carry <<< 29) |||
  (boolToU32 s.overflow <<< 28) |||
  (boolToU32 s.sticky_overflow <<< 27) |||
  (boolToU32 s.irq_disable <<< 7) |||
  (boolToU32 s.fiq_disable <<< 6) |||
  (s.instruction_mode.toU32 <<< 5) |||
  s.mode.toU32

/-- `ProgramStatusRegister::from_u32`: unpack the 32-bit layout. -/
def ProgramStatusRegister.from_u32 (psr : Nat) : ProgramStatusRegister where
  signed := decide (0 < psr &&& (1 <<< 31))
  zero := decide (0 < psr &&& (1 <<< 30))
  carry := decide (0 < psr &&& (1 <<< 29))
  overflow := decide (0 < psr &&& (1 <<< 28))
  sticky_overflow := decide (0 < psr &&& (1 <<< 27))
  irq_disable := decide (0 < psr &&& (1 <<< 7))
  fiq_disable := decide (0 < psr &&& (1 <<< 6))
  instruction_mode := if 0 < psr &&& (1 <<< 5) then .Thumb else .Arm
  mode := CpuMode.from_u32 (psr &&& 0x1F)

/-- Default CPSR value (`ProgramStatusRegister::default()` in the source:
every flag clear, ARM mode, `CpuMode::User`). -/
def ProgramStatusRegister.default : ProgramStatusRegister where
  signed := false
  zero := false
  carry := false
  overflow := false
  sticky_overflow := false
  irq_disable := false
  fiq_disable := false
  instruction_mode := .Arm
  mode := .User

/-- `src/core/interpreter/shift.rs`: the four barrel-shift operations. -/
inductive ShiftType where
  | LogicalLeft
  | LogicalRight
  | ArithmeticRight
  | RotateRight
  deriving DecidableEq, Repr

/-- Rust `u32` left shift as compiled in release builds: the shift amount is
masked to its low five bits (debug builds panic when the amount is ≥ 32). -/
def shl32 (a n : Nat) : Nat := wrap32 (a <<< (n % 32))

/-- Rust `u32` logical right shift, release semantics (masked amount). -/
def shr32 (a n : Nat) : Nat := a >>> (n % 32)

/-- Rust `i32` arithmetic right shift of a `u32` bit pattern, release
semantics (masked amount), returning the resulting `u32` bit pattern. -/
def asr32 (a n : Nat) : Nat :=
  let n := n % 32
  if a < 2 ^ 31 then a >>> n
  else wrap32 ((a >>> n) + (u32Size - (1 <<< (32 - n))))

/-- Rust `u32::rotate_right`. -/
def ror32 (a n : Nat) : Nat :=
  let n := n % 32
  wrap32 ((a >>> n) ||| (a <<< (32 - n)))

/-- `ShiftType::shift`: compute `(result, carry_out)` for an operand, a shift
amount and the current carry flag.  Mirrors the source line by line,
including the places the specification disputes: LSL with amount 0 yields
carry `false` (not the input carry), and LSR/ASR amount 0 is treated as 32.
Shift amounts are masked as in Rust release builds. -/
def ShiftType.shift (t : ShiftType) (operand shift_amount : Nat)
    (old_carry : Bool) : Nat × Bool :=
  match t with
  | .LogicalLeft =>
    let carry :=
      if 0 < shift_amount then
        decide (0 < shl32 operand (shift_amount - 1) &&& (1 <<< 31))
      else
        false
    (shl32 operand shift_amount, carry)
  | .LogicalRight =>
    let shift_amount := if 0 < shift_amount then shift_amount else 32
    (shr32 operand shift_amount,
      decide (0 < operand &&& shl32 1 (shift_amount - 1)))
  | .ArithmeticRight =>
    let shift_amount := if 0 < shift_amount then shift_amount else 32
    (asr32 operand shift_amount,
      decide (0 < operand &&& shl32 1 (shift_amount - 1)))
  | .RotateRight =>
    if 0 < shift_amount then
      (ror32 operand shift_amount,
        decide (0 < operand &&& shl32 1 (shift_amount - 1)))
    else
      (ror32 operand 1 ||| (boolToU32 old_carry <<< 31),
        decide (0 < operand &&& 1))

/-- `src/core/interpreter/arm/arithmetic.rs`: the sixteen data-processing
operations. -/
inductive DataProcessingOperation where
  | And
  | ExclusiveOr
  | Subtract
  | ReverseSubtract
  | Add
  | AddWithCarry
  | SubtractWithCarry
  | ReverseSubtractWithCarry
  | Test
  | TestEqual
  | Compare
  | CompareNegate
  | Or
  | Move
  | AndNot
  | MoveNegate
  deriving DecidableEq, Repr

/-- The eight arithmetic operations (ADD/ADC/SUB/SBC/RSB/RSC/CMP/CMN) among
the data-processing operations. -/
def DataProcessingOperation.isArithmetic : DataProcessingOperation → Bool
  | .Subtract | .ReverseSubtract | .Add | .AddWithCarry
  | .SubtractWithCarry | .ReverseSubtractWithCarry
  | .Compare | .CompareNegate => true
  | _ => false

/-- Bitwise complement of a `u32` (Rust `!operand`). -/
def not32 (a : Nat) : Nat := (u32Size - 1) - wrap32 a

/-- The `match self.operation` block of `DataProcessingInstruction::execute`:
given the already-read source-register value, operand value and the current
carry flag, produce `(result, overflow)` where `overflow` is the Rust
`overflowing_add`/`overflowing_sub` flag of the source (`false` for the
logical operations).  `carry as u32 - 1` in the SBC/RSC arms underflows when
the carry flag is clear; release builds wrap it to `0xFFFFFFFF`, which is the
semantics embedded here (debug builds panic). -/
def dataProcessingCompute (op : DataProcessingOperation)
    (source operand : Nat) (carry : Bool) : Nat × Bool :=
  match op with
  | .And => (source &&& operand, false)
  | .Test => (source &&& operand, false)
  | .ExclusiveOr => (source ^^^ operand, false)
  | .TestEqual => (source ^^^ operand, false)
  | .Subtract => overflowingSub source operand
  | .ReverseSubtract => overflowingSub operand source
  | .Add => overflowingAdd source operand
  | .AddWithCarry =>
    let (result, overflow1) := overflowingAdd source operand
    let (result, overflow2) := overflowingAdd result (boolToU32 carry)
    (result, overflow1 || overflow2)
  | .SubtractWithCarry =>
    let (result, overflow1) := overflowingSub source operand
    let (result, overflow2) :=
      overflowingAdd result (wrappingSub (boolToU32 carry) 1)
    (result, overflow1 || overflow2)
  | .ReverseSubtractWithCarry =>
    let (result, overflow1) := overflowingSub operand source
    let (result, overflow2) :=
      overflowingAdd result (wrappingSub (boolToU32 carry) 1)
    (result, overflow1 || overflow2)
  | .Compare => overflowingSub source operand
  | .CompareNegate => overflowingAdd source operand
  | .Or => (source ||| operand, false)
  | .Move => (operand, false)
  | .AndNot => (source &&& not32 operand, false)
  | .MoveNegate => (not32 operand, false)

/-- The flag-update block of `DataProcessingInstruction::execute` (the body
of `if self.update_conditions`): writes `overflow`, `carry`, `zero` and
`signed` into the CPSR from the source value, operand value, result and the
Rust arithmetic-overflow flag. -/
def dataProcessingWriteFlags (source operand result : Nat) (overflow : Bool)
    (cpsr : ProgramStatusRegister) : ProgramStatusRegister :=
  { cpsr with
    overflow := decide ((source ^^^ operand) &&& 0x80000000 = 0) &&
      decide ((source ^^^ result) &&& 0x80000000 ≠ 0)
    carry := overflow
    zero := decide (result = 0)
    signed := decide (0 < result &&& (1 <<< 31)) }

/-- The CPSR produced by `DataProcessingInstruction::execute` as a function
of the operation, the source-register value, the operand value and the
incoming CPSR, with `update_conditions` (the S bit) as a parameter. -/
def dataProcessingExecuteFlags (update_conditions : Bool)
    (op : DataProcessingOperation) (source operand : Nat)
    (cpsr : ProgramStatusRegister) : ProgramStatusRegister :=
  let ro := dataProcessingCompute op source operand cpsr.carry
  if update_conditions then
    dataProcessingWriteFlags source operand ro.1 ro.2 cpsr
  else
    cpsr

/-- Bit 31 of a machine word, the sign in two's-complement reading. -/
def sign32 (x : Nat) : Bool := x.testBit 31

/-- Which backing array of the register bank a `(index, mode)` pair selects,
and at which position.  This is the bank-selection logic shared by
`RegisterBank::reg_with_mode` and `reg_with_mode_mut` in
`src/core/interpreter/register.rs`. -/
inductive BankSlot where
  | bank0 (i : Nat)
  | fiq (i : Nat)
  | svc (i : Nat)
  | irq (i : Nat)
  | abt (i : Nat)
  | und (i : Nat)
  deriving DecidableEq, Repr

/-- The `match mode` of `RegisterBank::reg_with_mode`: FIQ shadows indices
that are neither below 8 nor 15 at `fiq_reg[index - 7]`; SVC/IRQ/ABT/UND
shadow indices 13 and 14 at `xxx_reg[index - 13]`; everything else is the
base array. -/
def regWithModeSlot (index : Nat) (mode : CpuMode) : BankSlot :=
  match mode with
  | .User | .System => .bank0 index
  | .Fiq => if index < 8 ∨ index = 15 then .bank0 index else .fiq (index - 7)
  | .Supervisor =>
    if index ≠ 13 ∧ index ≠ 14 then .bank0 index else .svc (index - 13)
  | .Irq =>
    if index ≠ 13 ∧ index ≠ 14 then .bank0 index else .irq (index - 13)
  | .Abort =>
    if index ≠ 13 ∧ index ≠ 14 then .bank0 index else .abt (index - 13)
  | .Undefined =>
    if index ≠ 13 ∧ index ≠ 14 then .bank0 index else .und (index - 13)

/-- Whether a selected slot is inside its backing array, using the declared
array lengths of the `RegisterBank` struct: `reg: [u32; 16]`,
`fiq_reg: [u32; 7]` and two-element arrays for the other shadow banks. -/
def BankSlot.inBounds : BankSlot → Bool
  | .bank0 i => decide (i < 16)
  | .fiq i => decide (i < 7)
  | .svc i => decide (i < 2)
  | .irq i => decide (i < 2)
  | .abt i => decide (i < 2)
  | .und i => decide (i < 2)

/-- Pointwise update of a bank stored as a function. -/
def updateFn {α : Type} (f : Nat → α) (i : Nat) (v : α) : Nat → α :=
  fun j => if j = i then v else f j

/-- `src/core/interpreter/register.rs`: the banked register file.  The
backing arrays are embedded as functions from indices to values; in-bounds
behaviour of the source's array indexing is captured separately through
`regWithModeSlot` and `BankSlot.inBounds`.  The `pipeline_flush` field is
read by `Interpreter::execute` in `src/core/interpreter/mod.rs` but is
absent from `register.rs` in the source tree; it is modelled from the
specification (see `RegisterBank.set_pc`). -/
structure RegisterBank where
  reg : Nat → Nat
  fiq_reg : Nat → Nat
  svc_reg : Nat → Nat
  abt_reg : Nat → Nat
  irq_reg : Nat → Nat
  und_reg : Nat → Nat
  spsr : Nat → ProgramStatusRegister
  cpsr : ProgramStatusRegister
  pipeline_flush : Bool

/-- `RegisterBank::default()`: zeroed registers, default CPSR, and the five
SPSRs carrying their owning mode. -/
def RegisterBank.default : RegisterBank where
  reg := fun _ => 0
  fiq_reg := fun _ => 0
  svc_reg := fun _ => 0
  abt_reg := fun _ => 0
  irq_reg := fun _ => 0
  und_reg := fun _ => 0
  spsr := fun i =>
    { ProgramStatusRegister.default with
      mode :=
        if i = 0 then .Fiq
        else if i = 1 then .Supervisor
        else if i = 2 then .Irq
        else if i = 3 then .Abort
        else .Undefined }
  cpsr := ProgramStatusRegister.default
  pipeline_flush := false

/-- `RegisterBank::reg_with_mode`: read the register visible at `index`
under `mode`. -/
def RegisterBank.reg_with_mode (rb : RegisterBank) (index : Nat)
    (mode : CpuMode) : Nat :=
  match regWithModeSlot index mode with
  | .bank0 i => rb.reg i
  | .fiq i => rb.fiq_reg i
  | .svc i => rb.svc_reg i
  | .irq i => rb.irq_reg i
  | .abt i => rb.abt_reg i
  | .und i => rb.und_reg i

/-- `RegisterBank::reg_with_mode_mut` used as the target of an assignment:
write `v` to the register visible at `index` under `mode`. -/
def RegisterBank.reg_with_mode_set (rb : RegisterBank) (index : Nat)
    (mode : CpuMode) (v : Nat) : RegisterBank :=
  match regWithModeSlot index mode with
  | .bank0 i => { rb with reg := updateFn rb.reg i v }
  | .fiq i => { rb with fiq_reg := updateFn rb.fiq_reg i v }
  | .svc i => { rb with svc_reg := updateFn rb.svc_reg i v }
  | .irq i => { rb with irq_reg := updateFn rb.irq_reg i v }
  | .abt i => { rb with abt_reg := updateFn rb.abt_reg i v }
  | .und i => { rb with und_reg := updateFn rb.und_reg i v }

/-- `RegisterBank::reg`: read under the current CPSR mode. -/
def RegisterBank.regRead (rb : RegisterBank) (index : Nat) : Nat :=
  rb.reg_with_mode index rb.cpsr.mode

/-- `RegisterBank::reg_mut` used as the target of an assignment. -/
def RegisterBank.regWrite (rb : RegisterBank) (index : Nat) (v : Nat) :
    RegisterBank :=
  rb.reg_with_mode_set index rb.cpsr.mode v

/-- `RegisterBank::pc`. -/
def RegisterBank.pc (rb : RegisterBank) : Nat := rb.regRead 15

/-- Modelled from the spec: `RegisterBank::pc_mut` and the accompanying
`pipeline_flush` signal are referenced by `Interpreter::execute` in
`src/core/interpreter/mod.rs` but the `pipeline_flush` field and its setter
are missing from `register.rs` in the source tree.  Following §4.8 of the
specification ("if the executor signaled a flush — branch taken, mode
change, SWI — clear both slots"), writing the program counter during
execution raises the flush signal that the pipeline consumes. -/
def RegisterBank.set_pc (rb : RegisterBank) (v : Nat) : RegisterBank :=
  { rb.regWrite 15 v with pipeline_flush := true }

/-- The index into the five-element SPSR array chosen by
`RegisterBank::spsr_with_mode`; the warning fallback for User/System
returns slot 0 (the FIQ slot), matching the source. -/
def spsrIndex : CpuMode → Nat
  | .Fiq => 0
  | .Supervisor => 1
  | .Irq => 2
  | .Abort => 3
  | .Undefined => 4
  | _ => 0

/-- `RegisterBank::spsr`: the current mode's SPSR. -/
def RegisterBank.spsrRead (rb : RegisterBank) : ProgramStatusRegister :=
  rb.spsr (spsrIndex rb.cpsr.mode)

/-- `RegisterBank::spsr_mut` used as the target of an assignment. -/
def RegisterBank.spsrWrite (rb : RegisterBank) (v : ProgramStatusRegister) :
    RegisterBank :=
  { rb with spsr := updateFn rb.spsr (spsrIndex rb.cpsr.mode) v }

/-- `src/core/mod.rs`: the fault kinds crossing the core boundary. -/
inductive CoreError where
  | OpcodeNotImplemented (raw : Nat)
  | InvalidRegion (address : Nat)
  deriving DecidableEq, Repr

/-- `src/core/memory/wram.rs`: work RAM with a configured base address and a
byte buffer, embedded as a list of byte values. -/
structure Wram where
  start_address : Nat
  container : List Nat

/-- `Wram::virtual_address`: `(address - start) as usize % len` with the
`u32` subtraction wrapping as in release builds.  The source indexes the
buffer with the result, which is in bounds whenever the buffer is nonempty
(Rust `%` by zero would panic; `Nat` `% 0` returns the dividend, and the
embedding is only used with nonempty buffers). -/
def Wram.virtual_address (w : Wram) (address : Nat) : Nat :=
  wrappingSub address w.start_address % w.container.length

/-- `Wram::read_byte` (for in-bounds indices; out of a nonempty buffer the
`getD` default is unreachable). -/
def Wram.read_byte (w : Wram) (address : Nat) : Nat :=
  w.container.getD (w.virtual_address address) 0

/-- `Wram::write_byte`; the source always returns `Ok(())`. -/
def Wram.write_byte (w : Wram) (address data : Nat) : Wram :=
  { w with container := w.container.set (w.virtual_address address) data }

/-- `src/core/bus.rs`: one `(address_range, device)` registration.  The
devices the proved claims touch are all work RAM, so the device side of the
`Addressable` contract is instantiated at `Wram` (whose byte writes never
fault, as in the source). -/
structure MemoryMapping where
  lo : Nat
  hi : Nat
  component : Wram

/-- `src/core/bus.rs`: the address-routing bus, an ordered region list. -/
structure Bus where
  regions : List MemoryMapping

/-- Linear scan of `Bus::read_byte`: the first region containing the address
serves the read; no region yields `InvalidRegion`. -/
def readRegions : List MemoryMapping → Nat → Except CoreError Nat
  | [], address => .error (.InvalidRegion address)
  | m :: rest, address =>
    if m.lo ≤ address ∧ address ≤ m.hi then .ok (m.component.read_byte address)
    else readRegions rest address

/-- Linear scan of `Bus::write_byte`, returning the updated region list. -/
def writeRegions : List MemoryMapping → Nat → Nat →
    Except CoreError (List MemoryMapping)
  | [], address, _ => .error (.InvalidRegion address)
  | m :: rest, address, data =>
    if m.lo ≤ address ∧ address ≤ m.hi then
      .ok ({ m with component := m.component.write_byte address data } :: rest)
    else
      (writeRegions rest address data).map (m :: ·)

/-- `Bus::read_byte`. -/
def Bus.read_byte (bus : Bus) (address : Nat) : Except CoreError Nat :=
  readRegions bus.regions address

/-- `Bus::write_byte`: the bus after the write, or a fault leaving the bus
untouched (the only failing path in the embedded device set is an unmapped
address, which writes nothing). -/
def Bus.write_byte (bus : Bus) (address data : Nat) : Except CoreError Bus :=
  (writeRegions bus.regions address data).map Bus.mk

/-- `Bus::read_word`: two byte reads combined little-endian. -/
def Bus.read_word (bus : Bus) (address : Nat) : Except CoreError Nat := do
  let low ← bus.read_byte address
  let high ← bus.read_byte (wrap32 (address + 1))
  pure (low ||| (high <<< 8))

/-- `Bus::read_dword`: two halfword reads combined little-endian. -/
def Bus.read_dword (bus : Bus) (address : Nat) : Except CoreError Nat := do
  let low ← bus.read_word address
  let high ← bus.read_word (wrap32 (address + 2))
  pure (low ||| (high <<< 16))

/-- `Bus::write_word`: low byte then high byte; a fault on the second byte
returns the error while the first byte stays written, so the final bus state
is threaded out alongside the result. -/
def Bus.write_word (bus : Bus) (address data : Nat) :
    Except CoreError Unit × Bus :=
  match bus.write_byte address (data % 256) with
  | .error e => (.error e, bus)
  | .ok bus1 =>
    match bus1.write_byte (wrap32 (address + 1)) ((data >>> 8) % 256) with
    | .error e => (.error e, bus1)
    | .ok bus2 => (.ok (), bus2)

/-- `Bus::write_dword`: low halfword then high halfword, same threading. -/
def Bus.write_dword (bus : Bus) (address data : Nat) :
    Except CoreError Unit × Bus :=
  match bus.write_word address (data % 65536) with
  | (.error e, bus1) => (.error e, bus1)
  | (.ok _, bus1) => bus1.write_word (wrap32 (address + 2)) ((data >>> 16) % 65536)

/-- `src/core/interpreter/arm/transfer.rs`: the decoded fields of an
LDM/STM instruction; `registers` is the 16-bit register-list mask. -/
structure BlockDataTransferInstruction where
  base_register_index : Nat
  registers : Nat
  load : Bool
  write_back : Bool
  increment : Bool
  pre_index : Bool
  psr_and_force_user : Bool
  number_of_registers : Nat

/-- One iteration of the `for i in 0..16` loop in
`BlockDataTransferInstruction::execute`, then the remaining iterations.
The loop state is `(base_address, register bank, bus)`; a bus fault stops
the loop with the state mutated so far (the source's store propagates the
error with `?`; the load `unwrap`s the read, a panic mapped onto the same
error outcome here).  Note both the load and the store address memory at
`base_register`, the base register's original value — `base_address` is
advanced but never used for the access. -/
def blockLoop (ins : BlockDataTransferInstruction) (base_register : Nat)
    (register_bank : CpuMode) (new_address : Nat) :
    List Nat → Nat × RegisterBank × Bus →
    Option CoreError × Nat × RegisterBank × Bus
  | [], st => (none, st)
  | i :: rest, (base_address, regs, bus) =>
    if ins.registers &&& (1 <<< i) ≠ 0 then
      let base_address :=
        if ins.pre_index then wrap32 (base_address + 4) else base_address
      let step : Option CoreError × RegisterBank × Bus :=
        if ins.load then
          match bus.read_dword base_register with
          | .error e => (some e, regs, bus)
          | .ok v =>
            let regs := regs.reg_with_mode_set i register_bank v
            let regs :=
              if i = 15 ∧ ins.psr_and_force_user then
                { regs with cpsr := regs.spsrRead }
              else regs
            (none, regs, bus)
        else
          match bus.write_dword base_register
              (regs.reg_with_mode i register_bank) with
          | (.error e, bus1) => (some e, regs, bus1)
          | (.ok _, bus1) => (none, regs, bus1)
      match step with
      | (some e, regs, bus) => (some e, base_address, regs, bus)
      | (none, regs, bus) =>
        let base_address :=
          if ¬ ins.pre_index then wrap32 (base_address + 4) else base_address
        let regs :=
          if ins.write_back then
            regs.regWrite ins.base_register_index new_address
          else regs
        blockLoop ins base_register register_bank new_address rest
          (base_address, regs, bus)
    else
      blockLoop ins base_register register_bank new_address rest
        (base_address, regs, bus)

/-- `BlockDataTransferInstruction::execute`: compute the starting slot, the
bank to use, the writeback value, then run the register-list loop.  The
decrement starting point `base_register - 4 * (n - 1)` and the increment
writeback `base_address + 4 * n` wrap as `u32` arithmetic. -/
def BlockDataTransferInstruction.execute (ins : BlockDataTransferInstruction)
    (registers0 : RegisterBank) (bus0 : Bus) :
    Except CoreError Nat × RegisterBank × Bus :=
  let base_register := registers0.regRead ins.base_register_index
  let base_address :=
    if ins.increment then base_register
    else wrappingSub base_register
      (wrap32 (4 * wrappingSub ins.number_of_registers 1))
  let register_bank :=
    if (ins.registers &&& (1 <<< 15) = 0 ∨ ¬ ins.load) ∧
        ins.psr_and_force_user then
      CpuMode.User
    else
      registers0.cpsr.mode
  let new_address :=
    if ins.increment then
      wrap32 (base_address + wrap32 (4 * ins.number_of_registers))
    else
      base_address
  match blockLoop ins base_register register_bank new_address
      (List.range 16) (base_address, registers0, bus0) with
  | (some e, _, regs, bus) => (.error e, regs, bus)
  | (none, _, regs, bus) => (.ok 1, regs, bus)

/-- `src/core/interpreter/interrupt.rs`: the decoded SWI, carrying the
address of the instruction after it (grabbed from the PC at decode time)
and the comment field. -/
structure SoftwareInterruptInstruction where
  past_address : Nat
  comment : Nat

/-- `SoftwareInterruptInstruction::execute`: write the saved address into
R14 of the *current* mode, set the PC to 0x8 and copy the CPSR into the
*current* mode's SPSR slot.  The CPSR itself — mode and interrupt-disable
bits included — is left untouched. -/
def SoftwareInterruptInstruction.execute (ins : SoftwareInterruptInstruction)
    (registers : RegisterBank) : RegisterBank :=
  let registers := registers.regWrite 14 ins.past_address
  let registers := registers.set_pc 8
  registers.spsrWrite registers.cpsr

/-- `src/core/interpreter/arm/branch.rs`: the decoded B/BL instruction:
an optional link value and the sign-extended, pre-shifted offset. -/
structure BranchInstruction where
  link : Option Nat
  offset : Int

/-- `BranchInstruction::execute`: store the link value if present, then set
`PC := ((pc as i32) + offset) as u32`, and report 3 cycles. -/
def BranchInstruction.execute (b : BranchInstruction)
    (registers : RegisterBank) : RegisterBank × Nat :=
  let registers :=
    match b.link with
    | some l => registers.regWrite 14 l
    | none => registers
  let newPc := (((registers.pc : Int) + b.offset) % (u32Size : Int)).toNat
  (registers.set_pc newPc, 3)

/-- The decoded-instruction sum of `src/core/interpreter/instruction.rs`,
restricted to the variant the pipeline claims below exercise. -/
inductive Instruction where
  | Branch (b : BranchInstruction)

/-- `src/core/interpreter/instruction.rs`: a decoded operation: where it was
fetched, its raw opcode, its condition nibble and the instruction. -/
structure Operation where
  location : Nat
  opcode : Nat
  condition : Nat
  instruction : Instruction

/-- `Interpreter::check_condition` from `src/core/interpreter/mod.rs`. -/
def checkCondition (cpsr : ProgramStatusRegister) (condition : Nat) : Bool :=
  match condition with
  | 0x0 => cpsr.zero
  | 0x1 => !cpsr.zero
  | 0x2 => cpsr.carry
  | 0x3 => !cpsr.carry
  | 0x4 => cpsr.signed
  | 0x5 => !cpsr.signed
  | 0x6 => cpsr.overflow
  | 0x7 => !cpsr.overflow
  | 0x8 => cpsr.carry && !cpsr.zero
  | 0x9 => !cpsr.carry || cpsr.zero
  | 0xA => cpsr.signed == cpsr.overflow
  | 0xB => !(cpsr.signed == cpsr.overflow)
  | 0xC => !cpsr.zero && (cpsr.signed == cpsr.overflow)
  | 0xD => cpsr.zero || !(cpsr.signed == cpsr.overflow)
  | 0xE => true
  | 0xF => false
  | _ => true

/-- Dispatch of `Interpreter::execute` to the decoded variant's executor. -/
def Instruction.execute : Instruction → RegisterBank → RegisterBank × Nat
  | .Branch b, rb => b.execute rb

/-- `src/core/interpreter/mod.rs`: the pipeline state — register bank plus
the two optional slots `(raw word, fetch pc)` and decoded operation. -/
structure Interpreter where
  registers : RegisterBank
  fetched_instruction : Option (Nat × Nat)
  decoded_instruction : Option Operation

/-- The execute stage of `Interpreter::tick` (`Interpreter::execute`): run
the decoded instruction if its condition passes, and if the executor raised
the flush signal clear both pipeline slots and reset the signal. -/
def Interpreter.executeStep (s : Interpreter) :
    Except CoreError Nat × Interpreter :=
  match s.decoded_instruction with
  | some op =>
    if checkCondition s.registers.cpsr op.condition then
      let rc := op.instruction.execute s.registers
      if rc.1.pipeline_flush then
        (.ok rc.2,
          { s with
            registers := { rc.1 with pipeline_flush := false }
            decoded_instruction := none
            fetched_instruction := none })
      else
        (.ok rc.2, { s with registers := rc.1 })
    else
      (.ok 1, s)
  | none => (.ok 1, s)

end Rgba

namespace Rgba

/-- C8: for every status-register value, packing with `to_u32` and unpacking
with `from_u32` returns the original value. -/
theorem psr_roundtrip (s : ProgramStatusRegister) :
    ProgramStatusRegister.from_u32 s.to_u32 = s := by
  obtain ⟨sg, z, c, o, st, irq, fiq, im, m⟩ := s
  cases sg <;> cases z <;> cases c <;> cases o <;> cases st <;> cases irq <;>
    cases fiq <;> cases im <;> cases m <;> decide

/-- Masking a xor with the bit-31 mask detects sign agreement. -/
lemma xorMsbZero (a b : Nat) :
    ((a ^^^ b) &&& 0x80000000 = 0) ↔ sign32 a = sign32 b := by
  have h : (0x80000000 : Nat) = 2 ^ 31 := by norm_num
  rw [h, Nat.and_two_pow, Nat.testBit_xor]
  unfold sign32
  cases ha : a.testBit 31 <;> cases hb : b.testBit 31 <;> simp [ha, hb]

/-- The overflow flag written by the flag-update block equals the sign rule:
source and operand signs agree while the result sign disagrees. -/
lemma writeFlags_overflow (source operand result : Nat) (ov : Bool)
    (cpsr : ProgramStatusRegister) :
    ((dataProcessingWriteFlags source operand result ov cpsr).overflow = true)
      ↔ (sign32 source = sign32 operand ∧ sign32 result ≠ sign32 source) := by
  simp only [dataProcessingWriteFlags, Bool.and_eq_true, decide_eq_true_eq,
    Ne, xorMsbZero]
  constructor <;> rintro ⟨h1, h2⟩ <;> exact ⟨h1, fun hc => h2 hc.symm⟩

/-- C3: for every arithmetic data-processing operation with the S bit set,
the overflow flag written by execute is set exactly when the signs of the
source and operand agree while the sign of the result disagrees. -/
theorem overflow_flag_sign_rule (op : DataProcessingOperation)
    (h : op.isArithmetic = true) (source operand : Nat)
    (cpsr : ProgramStatusRegister) :
    ((dataProcessingExecuteFlags true op source operand cpsr).overflow = true)
      ↔ (sign32 source = sign32 operand ∧
        sign32 (dataProcessingCompute op source operand cpsr.carry).1
          ≠ sign32 source) := by
  simp only [dataProcessingExecuteFlags, if_pos]
  exact writeFlags_overflow source operand _ _ cpsr

/-- Witness for C3: ADC is arithmetic, and adding `0x80000000` to itself
(two negative inputs, result 0) is reported as a signed overflow. -/
theorem overflow_flag_sign_rule_witness :
    DataProcessingOperation.isArithmetic .Add = true ∧
    (((dataProcessingExecuteFlags true .Add 0x80000000 0x80000000
        ProgramStatusRegister.default).overflow = true)
      ↔ (sign32 0x80000000 = sign32 0x80000000 ∧
        sign32 (dataProcessingCompute .Add 0x80000000 0x80000000
          ProgramStatusRegister.default.carry).1 ≠ sign32 0x80000000)) :=
  ⟨by decide,
    overflow_flag_sign_rule .Add (by decide) 0x80000000 0x80000000
      ProgramStatusRegister.default⟩

/-- C2: executing `CMP 0, 1` (equally `SUBS`) with the S bit set writes the
unsigned borrow itself into the carry flag: the written flag is `true` while
the borrow `0 < 1` holds, so the specified value `!borrow` would be
`false`. -/
theorem sub_carry_is_borrow_not_its_negation :
    (dataProcessingExecuteFlags true .Compare 0 1
        ProgramStatusRegister.default).carry = true ∧
      (! decide ((0 : Nat) < 1)) = false := by decide

/-- A CPSR with the carry and overflow flags set, used to observe which flags
a logical data-processing instruction overwrites. -/
def psrCarryOverflowSet : ProgramStatusRegister :=
  { ProgramStatusRegister.default with carry := true, overflow := true }

/-- C4: executing `ANDS 0, 0` with the S bit set and both the carry and the
overflow flag previously set writes `false` into the carry flag (the
arithmetic-overflow component, which is constantly false for logical
operations, rather than any shifter carry-out) and overwrites the overflow
flag with the sign-rule value instead of leaving it unchanged. -/
theorem logical_ops_clobber_carry_and_overflow :
    (dataProcessingExecuteFlags true .And 0 0 psrCarryOverflowSet).carry
        = false ∧
      (dataProcessingExecuteFlags true .And 0 0 psrCarryOverflowSet).overflow
        = false ∧
      psrCarryOverflowSet.overflow = true := by decide

/-- C9: the barrel shifter's LSL with amount 0 returns carry `false` even
when the input carry is set (the specification demands the input carry), and
LSL of 1 by 32 returns the operand unchanged with carry true (release-build
masked shift) instead of the specified result 0. -/
theorem lsl_zero_amount_drops_carry :
    ShiftType.shift .LogicalLeft 5 0 true = (5, false) ∧
      ShiftType.shift .LogicalLeft 1 32 false = (1, true) := by decide

/-- C6: under FIQ mode, register index 14 selects position `14 - 7 = 7` of
the seven-element FIQ shadow array — an out-of-bounds access (a panic in the
source), so the accessors are not total over indices 0..=15. -/
theorem fiq_r14_bank_index_out_of_bounds :
    regWithModeSlot 14 .Fiq = .fiq 7 ∧ BankSlot.inBounds (.fiq 7) = false := by
  decide

/-- A 32-byte work RAM based at address 0, as in the block-transfer scenario
of the specification (the repository's own test uses a 1 KiB RAM; any RAM
covering the 16 written bytes behaves identically). -/
def c1Wram : Wram := { start_address := 0, container := List.replicate 32 0 }

/-- The work RAM of `c1Wram` mapped at addresses 0..=31. -/
def c1Bus : Bus := { regions := [{ lo := 0, hi := 31, component := c1Wram }] }

/-- Register bank for the STMIA scenario: R0..R3 = 10, 20, 30, 40 and
R13 = 0, in the default (User) mode. -/
def c1Registers : RegisterBank :=
  { RegisterBank.default with
    reg := fun i =>
      if i = 0 then 10
      else if i = 1 then 20
      else if i = 2 then 30
      else if i = 3 then 40
      else 0 }

/-- STMIA R13, {R0-R3} with writeback, as built by the repository's own
`stmia` test: `BlockDataTransferInstruction::new(13, 0b1111, false, true,
true, false, false, 4)`. -/
def c1Instruction : BlockDataTransferInstruction :=
  { base_register_index := 13
    registers := 0b1111
    load := false
    write_back := true
    increment := true
    pre_index := false
    psr_and_force_user := false
    number_of_registers := 4 }

/-- C1: executing STMIA with base R13 = 0 and list {R0..R3} = {10,20,30,40}
stores every register to the base register's original address 0 (the loop
reads `base_register`, never the advanced `base_address`), so memory word 0
ends as 40 and word 4 stays 0 — not the ascending [10,20,30,40] that the
specification and the repository's `stmia` test demand — while the written
back R13 = 16 does match. -/
theorem stmia_stores_every_register_at_base :
    (c1Instruction.execute c1Registers c1Bus).1 = .ok 1 ∧
      ((c1Instruction.execute c1Registers c1Bus).2.2).read_dword 0 = .ok 40 ∧
      ((c1Instruction.execute c1Registers c1Bus).2.2).read_dword 4 = .ok 0 ∧
      ((c1Instruction.execute c1Registers c1Bus).2.1).regRead 13 = 16 :=
  ⟨rfl, rfl, rfl, rfl⟩

/-- Register bank at SWI entry: the reset state, whose CPSR mode is System
per the machine-reset contract (`reset()` sets System mode). -/
def c5Registers : RegisterBank :=
  { RegisterBank.default with
    cpsr := { ProgramStatusRegister.default with mode := .System } }

/-- The SWI of the specification's scenario: comment 0x12, decoded with the
next instruction's address 0x104 on the PC. -/
def c5Swi : SoftwareInterruptInstruction :=
  { past_address := 0x104, comment := 0x12 }

/-- C5: executing SWI from System mode leaves the CPSR mode System (no
Supervisor switch) with IRQs still enabled, writes the return address into
the current mode's R14 (the base array) rather than R14_svc, and copies the
CPSR into the FIQ SPSR slot (the User/System warning fallback) rather than
SPSR_svc; only PC = 0x8 matches the specified behaviour. -/
theorem swi_does_not_enter_supervisor :
    (c5Swi.execute c5Registers).cpsr.mode = CpuMode.System ∧
      (c5Swi.execute c5Registers).cpsr.irq_disable = false ∧
      (c5Swi.execute c5Registers).svc_reg 1 = 0 ∧
      (c5Swi.execute c5Registers).reg 14 = 0x104 ∧
      (c5Swi.execute c5Registers).spsr 1 = RegisterBank.default.spsr 1 ∧
      (c5Swi.execute c5Registers).spsr 0 = c5Registers.cpsr ∧
      (c5Swi.execute c5Registers).pc = 8 :=
  ⟨rfl, rfl, rfl, rfl, rfl, rfl, rfl⟩

/-- Pipeline state about to execute `B` with offset −8: the PC visible to
execute is 0x108, both slots are occupied, condition AL. -/
def c7State : Interpreter :=
  { registers :=
      { RegisterBank.default with reg := fun i => if i = 15 then 0x108 else 0 }
    fetched_instruction := some (0, 0x10C)
    decoded_instruction := some
      { location := 0x100
        opcode := 0
        condition := 0xE
        instruction := .Branch { link := none, offset := -8 } } }

/-- C7: executing the taken branch with offset −8 from visible PC 0x108 sets
the PC to 0x100 and clears both pipeline slots (so the following tick can
only fetch), reporting the branch's 3 cycles. -/
theorem branch_sets_pc_and_flushes :
    (c7State.executeStep).2.registers.pc = 0x100 ∧
      (c7State.executeStep).2.fetched_instruction = none ∧
      (c7State.executeStep).2.decoded_instruction = none ∧
      (c7State.executeStep).1 = .ok 3 :=
  ⟨rfl, rfl, rfl, rfl⟩

/-- A one-byte work RAM based at address 0. -/
def c10Wram : Wram := { start_address := 0, container := [0] }

/-- A bus mapping exactly one byte of RAM at address 0, so that a word write
at 0 starts mapped and ends unmapped. -/
def c10Bus : Bus := { regions := [{ lo := 0, hi := 0, component := c10Wram }] }

/-- C10 counterexample: the word write at address 0 on a bus whose mapping
ends after one byte returns the `InvalidRegion 1` fault, yet the mapped byte
at 0 has been changed from 0 to the data's low byte — multi-byte bus writes
are not atomic on error. -/
theorem write_word_fault_mutates_mapped_prefix :
    (c10Bus.write_word 0 0xBBAA).1 = .error (.InvalidRegion 1) ∧
      ((c10Bus.write_word 0 0xBBAA).2).read_byte 0 = .ok 0xAA ∧
      c10Bus.read_byte 0 = .ok 0 :=
  ⟨rfl, rfl, rfl⟩

/-- C10 (amended): a faulting `write_word` has prefix-write semantics: the
resulting bus is either the original (the first byte already faulted) or the
original with the low byte written (the second byte faulted). -/
theorem write_word_fault_prefix (bus : Bus) (a d : Nat) (e : CoreError)
    (h : (bus.write_word a d).1 = .error e) :
    (bus.write_word a d).2 = bus ∨
      ∃ bus1, bus.write_byte a (d % 256) = .ok bus1 ∧
        (bus.write_word a d).2 = bus1 := by
  unfold Bus.write_word at h ⊢
  cases hb : bus.write_byte a (d % 256) with
  | error e1 => simp [hb]
  | ok bus1 =>
    right
    refine ⟨bus1, rfl, ?_⟩
    cases hb2 : bus1.write_byte (wrap32 (a + 1)) ((d >>> 8) % 256) with
    | error e2 => simp [hb2]
    | ok bus2 =>
      rw [hb] at h
      simp [hb2] at h

/-- Witness for C10's amended statement: the one-byte bus faults on the word
write and the final state is the prefix-written one. -/
theorem write_word_fault_prefix_witness :
    (c10Bus.write_word 0 0xBBAA).1 = .error (.InvalidRegion 1) ∧
      ((c10Bus.write_word 0 0xBBAA).2 = c10Bus ∨
        ∃ bus1, c10Bus.write_byte 0 (0xBBAA % 256) = .ok bus1 ∧
          (c10Bus.write_word 0 0xBBAA).2 = bus1) :=
  ⟨rfl, write_word_fault_prefix c10Bus 0 0xBBAA (.InvalidRegion 1) rfl⟩

end Rgba
